import Mathlib

/-!
Verification of the issue analysis and match-scoring engine of gsoc-buddy-ai.

The definitions below are a shallow embedding of `src/utils/ai_analyzer.py`
(class `IssueAnalyzer` and the module-level `quick_analyze`).  Python
dictionaries are modelled as insertion-ordered association lists over a small
value universe `PyVal`; the AI capability (`self.model.generate_content` plus
the `response.text` accessor) is modelled as a function from the prompt string
to either a response text or a raised Python exception.

Python string primitives (`strip`, `split`, `startswith`, `lower`, slicing)
are given structural implementations over `List Char` so that every
definition evaluates by kernel reduction; they agree with Python on all the
ASCII data handled by this program.
-/

/-- Python `s.split(sep)` for a single-character separator, on character
lists: `"".split` gives `[""]`, separators at the ends produce empty
fields. -/
def splitChar (sep : Char) : List Char → List (List Char)
  | [] => [[]]
  | c :: cs =>
    if c = sep then [] :: splitChar sep cs
    else
      match splitChar sep cs with
      | t :: ts => (c :: t) :: ts
      | [] => [[c]]

/-- Join character lists with a single-character separator (inverse of
`splitChar` on its output). -/
def joinChar (sep : Char) : List (List Char) → List Char
  | [] => []
  | [x] => x
  | x :: xs => x ++ sep :: joinChar sep xs

/-- Whether the first list is an initial segment of the second. -/
def isHeadOf : List Char → List Char → Bool
  | [], _ => true
  | _ :: _, [] => false
  | p :: ps, c :: cs => p == c && isHeadOf ps cs

/-- Python `s.split(sep)` for a one-character separator. -/
def pySplit (sep : Char) (s : String) : List String :=
  (splitChar sep s.data).map String.mk

/-- Python `s.strip()`: drop leading and trailing whitespace. -/
def pyStrip (s : String) : String :=
  String.mk (((s.data.dropWhile Char.isWhitespace).reverse.dropWhile
    Char.isWhitespace).reverse)

/-- Python `s.startswith(p)`. -/
def pyStartsWith (s p : String) : Bool :=
  isHeadOf p.data s.data

/-- Python `s.lower()` (ASCII letters, which is all this program lowers). -/
def pyLower (s : String) : String :=
  String.mk (s.data.map Char.toLower)

/-- Python `s[:n]`. -/
def pyTake (n : Nat) (s : String) : String :=
  String.mk (s.data.take n)

/-- A Python value as it occurs in the analyzer's dictionaries. -/
inductive PyVal where
  | str : String → PyVal
  | list : List String → PyVal
  | bool : Bool → PyVal
  deriving DecidableEq, Repr

/-- A Python dictionary with string keys, as an insertion-ordered
association list. -/
abbrev PyDict := List (String × PyVal)

/-- Python `d.get(k)` / `k in d`: first binding of `k`, if any. -/
def dictGet (k : String) (d : PyDict) : Option PyVal :=
  (d.find? (fun p => p.1 == k)).map (fun p => p.2)

/-- Python `d[k] = v`: replace the binding in place when the key is present,
otherwise append the new binding at the end (insertion order). -/
def dictSet (k : String) (v : PyVal) (d : PyDict) : PyDict :=
  match d with
  | [] => [(k, v)]
  | p :: rest => if p.1 == k then (k, v) :: rest else p :: dictSet k v rest

/-- Python `d.get(k, default)` where the expected value is a string. -/
def pyGetStr (k : String) (d : PyDict) (dflt : String) : String :=
  match dictGet k d with
  | some (PyVal.str s) => s
  | _ => dflt

/-- Python `d.get(k, default)` where the expected value is a list of strings. -/
def pyGetList (k : String) (d : PyDict) : List String :=
  match dictGet k d with
  | some (PyVal.list l) => l
  | _ => []

/-- Python `line.split(":", 1)[1]`: everything after the first `:`.  In the
parser this is only evaluated on lines that start with `"KEY:"`, so a colon is
always present. -/
def afterFirstColon (s : String) : String :=
  String.mk (joinChar ':' (splitChar ':' s.data).tail)

/-- Python `[t.strip() for t in s.split(",") if t.strip()]`. -/
def splitCommaClean (s : String) : List String :=
  ((pySplit ',' s).map pyStrip).filter (fun t => t ≠ "")

/-- The result dictionary built by `IssueAnalyzer._parse_ai_response`, as a
record.  `good_for_gsoc` and `parsing_error` model keys that are only inserted
when the corresponding event happens; `none` means the key is absent. -/
structure ParseResult where
  difficulty : String
  skills_required : List String
  estimated_hours : String
  good_for_beginners : Bool
  concepts_needed : List String
  explanation : String
  good_for_gsoc : Option Bool
  parsing_error : Option String
  deriving DecidableEq, Repr

/-- The initial `result` dictionary of `_parse_ai_response`. -/
def initResult : ParseResult :=
  { difficulty := "unknown"
    skills_required := []
    estimated_hours := "unknown"
    good_for_beginners := false
    concepts_needed := []
    explanation := ""
    good_for_gsoc := none
    parsing_error := none }

/-- One iteration of the `for line in lines` loop of `_parse_ai_response`:
strip the line, then the `if`/`elif` chain on exact `startswith` tests. -/
def parseStep (r : ParseResult) (line0 : String) : ParseResult :=
  let line := pyStrip line0
  if pyStartsWith line "DIFFICULTY:" then
    let difficulty := pyLower (pyStrip (afterFirstColon line))
    { r with difficulty := difficulty,
             good_for_beginners := difficulty == "beginner" }
  else if pyStartsWith line "SKILLS:" then
    { r with skills_required := splitCommaClean (pyStrip (afterFirstColon line)) }
  else if pyStartsWith line "TIME_ESTIMATE:" then
    { r with estimated_hours := pyStrip (afterFirstColon line) }
  else if pyStartsWith line "GOOD_FOR_GSOC:" then
    { r with good_for_gsoc := some (pyLower (pyStrip (afterFirstColon line)) == "yes") }
  else if pyStartsWith line "CONCEPTS:" then
    { r with concepts_needed := splitCommaClean (pyStrip (afterFirstColon line)) }
  else if pyStartsWith line "EXPLANATION:" then
    { r with explanation := pyStrip (afterFirstColon line) }
  else r

/-- The loop of `_parse_ai_response` over an explicit list of lines. -/
def parseLines (lines : List String) : ParseResult :=
  lines.foldl parseStep initResult

/-- `IssueAnalyzer._parse_ai_response`: strip the response, split it into
lines and run the parsing loop.  The `try` body is total in this embedding
(the guarded `split(":", 1)[1]` accesses cannot fail), so the
`except` branch that would set `parsing_error` is never taken. -/
def parse_ai_response (response_text : String) : ParseResult :=
  parseLines (pySplit '\n' (pyStrip response_text))

/-- Which of the six recognised field labels a (stripped) line starts with,
mirroring the `if`/`elif` chain of `_parse_ai_response`. -/
inductive FieldKey where
  | difficulty | skills | time | gsoc | concepts | explanation
  deriving DecidableEq, Repr

/-- The field, if any, that a given line updates in `_parse_ai_response`. -/
def lineKey (line0 : String) : Option FieldKey :=
  let line := pyStrip line0
  if pyStartsWith line "DIFFICULTY:" then some FieldKey.difficulty
  else if pyStartsWith line "SKILLS:" then some FieldKey.skills
  else if pyStartsWith line "TIME_ESTIMATE:" then some FieldKey.time
  else if pyStartsWith line "GOOD_FOR_GSOC:" then some FieldKey.gsoc
  else if pyStartsWith line "CONCEPTS:" then some FieldKey.concepts
  else if pyStartsWith line "EXPLANATION:" then some FieldKey.explanation
  else none

/-- Python `sep.join(items)`. -/
def pyJoin (sep : String) : List String → String
  | [] => ""
  | [x] => x
  | x :: xs => x ++ sep ++ pyJoin sep xs

/-- The dictionary built by `_parse_ai_response`, in Python insertion order:
the six keys of the initial `result` literal, then `good_for_gsoc` and
`parsing_error` when those keys were inserted during the loop. -/
def toDict (r : ParseResult) : PyDict :=
  [("difficulty", PyVal.str r.difficulty),
   ("skills_required", PyVal.list r.skills_required),
   ("estimated_hours", PyVal.str r.estimated_hours),
   ("good_for_beginners", PyVal.bool r.good_for_beginners),
   ("concepts_needed", PyVal.list r.concepts_needed),
   ("explanation", PyVal.str r.explanation)]
  ++ (match r.good_for_gsoc with
      | some b => [("good_for_gsoc", PyVal.bool b)]
      | none => [])
  ++ (match r.parsing_error with
      | some e => [("parsing_error", PyVal.str e)]
      | none => [])

/-- The class of a raised Python exception.  `ValueError`, `AttributeError`
and `TypeError` are the classes that `analyze_issue` catches; every other
class (for example the `google.api_core` provider exceptions exercised in
`test_gemini.py`) is represented by `other` with its class name. -/
inductive PyExcClass where
  | valueError
  | attributeError
  | typeError
  | other (name : String)
  deriving DecidableEq, Repr

/-- A raised Python exception: its class and its `str(error)` message. -/
structure PyExc where
  cls : PyExcClass
  msg : String
  deriving DecidableEq, Repr

/-- Whether `except (ValueError, AttributeError, TypeError)` catches the
exception class. -/
def isCaught : PyExcClass → Bool
  | PyExcClass.valueError => true
  | PyExcClass.attributeError => true
  | PyExcClass.typeError => true
  | PyExcClass.other _ => false

/-- Python `f"Labels: {', '.join(labels)}" if labels else ""` — empty for
`None` and for an empty label list. -/
def labelText : Option (List String) → String
  | some (l :: ls) => "Labels: " ++ pyJoin ", " (l :: ls)
  | _ => ""

/-- `IssueAnalyzer._create_analysis_prompt`: the f-string prompt, verbatim. -/
def create_analysis_prompt (title description : String)
    (labels : Option (List String)) : String :=
  "\nAnalyze this GitHub issue and provide structured information:\n\n**Title:** "
  ++ title
  ++ "\n\n**Description:** "
  ++ description
  ++ "\n\n"
  ++ labelText labels
  ++ "\n\nPlease provide analysis in the following format:\n\nDIFFICULTY: [beginner/intermediate/advanced]\nSKILLS: [comma-separated list of required skills/technologies]\nTIME_ESTIMATE: [estimated hours to complete]\nGOOD_FOR_GSOC: [yes/no]\nCONCEPTS: [key programming concepts needed]\nEXPLANATION: [brief explanation of why this difficulty level]\n\nBe specific and technical. Focus on programming languages and frameworks.\n"

/-- The mutable state of an `IssueAnalyzer`: its `analysis_cache` dictionary
mapping cache keys to analysis dictionaries. -/
structure AnalyzerState where
  analysis_cache : List (String × PyDict)
  deriving DecidableEq, Repr

/-- Cache lookup (`cache_key in self.analysis_cache` plus indexing). -/
def cacheGet (k : String) (c : List (String × PyDict)) : Option PyDict :=
  (c.find? (fun p => p.1 == k)).map (fun p => p.2)

/-- Cache assignment `self.analysis_cache[cache_key] = analysis`. -/
def cacheSet (k : String) (v : PyDict) : List (String × PyDict) → List (String × PyDict)
  | [] => [(k, v)]
  | p :: rest => if p.1 == k then (k, v) :: rest else p :: cacheSet k v rest

/-- Python `f"{title}:{description[:100]}"`, the fingerprint used as cache
key in `analyze_issue`. -/
def cacheKey (title description : String) : String :=
  title ++ ":" ++ pyTake 100 description

/-- The error dictionary returned by the `except` branch of
`analyze_issue`. -/
def errorDict (msg title : String) : PyDict :=
  [("error", PyVal.str msg),
   ("difficulty", PyVal.str "unknown"),
   ("skills_required", PyVal.list []),
   ("good_for_beginners", PyVal.bool false),
   ("original_title", PyVal.str title)]

/-- The outcome of one `analyze_issue` call: the returned dictionary (or the
propagated exception when its class is not caught), the analyzer state after
the call, and how many times the AI capability was invoked (0 or 1). -/
structure CallResult where
  result : Except PyExc PyDict
  state : AnalyzerState
  aiCalls : Nat
  deriving Repr

/-- `IssueAnalyzer.analyze_issue(title, description, labels)`.  The AI
capability `ai` maps the prompt to the response text or to a raised
exception; exceptions of the caught classes produce the error dictionary,
any other class propagates. -/
def analyze_issue (ai : String → Except PyExc String) (st : AnalyzerState)
    (title description : String) (labels : Option (List String)) : CallResult :=
  let cache_key := cacheKey title description
  match cacheGet cache_key st.analysis_cache with
  | some cached => ⟨Except.ok cached, st, 0⟩
  | none =>
    let prompt := create_analysis_prompt title description labels
    match ai prompt with
    | Except.ok text =>
      let a0 := toDict (parse_ai_response text)
      let a1 := dictSet "original_title" (PyVal.str title) a0
      let a2 := dictSet "original_description" (PyVal.str (pyTake 200 description)) a1
      let analysis := dictSet "labels" (PyVal.list (labels.getD [])) a2
      ⟨Except.ok analysis, ⟨cacheSet cache_key analysis st.analysis_cache⟩, 1⟩
    | Except.error e =>
      if isCaught e.cls then ⟨Except.ok (errorDict e.msg title), st, 1⟩
      else ⟨Except.error e, st, 1⟩

/-- Module-level `quick_analyze(title, description)`: construct a fresh
`IssueAnalyzer` (empty cache) and call `analyze_issue` with the default
`labels=None`. -/
def quick_analyze (ai : String → Except PyExc String)
    (title description : String) : CallResult :=
  analyze_issue ai ⟨[]⟩ title description none

/-- An exact fraction with positive denominator, modelling the Python float
arithmetic of `calculate_match_score` (all values there are small fractions
such as 0.7 or `count/len`, and every quantity the claims mention is exactly
representable). -/
structure Frac where
  num : ℤ
  den : ℤ
  deriving Repr

/-- Fraction addition (no normalisation needed: only comparisons, rounding
and thresholds consume these values). -/
def Frac.add (a b : Frac) : Frac :=
  ⟨a.num * b.den + b.num * a.den, a.den * b.den⟩

/-- Fraction multiplication. -/
def Frac.mul (a b : Frac) : Frac :=
  ⟨a.num * b.num, a.den * b.den⟩

/-- Fraction division (used with a positive divisor only). -/
def Frac.div (a b : Frac) : Frac :=
  ⟨a.num * b.den, a.den * b.num⟩

/-- `a ≤ b` by cross multiplication (denominators are positive). -/
def Frac.le (a b : Frac) : Bool :=
  decide (a.num * b.den ≤ b.num * a.den)

/-- Python `round`: nearest integer, ties to the even neighbour.  The
floor is `fdiv`; the fractional part `r/den` is compared with `1/2` by
cross multiplication. -/
def pyRound (q : Frac) : ℤ :=
  let fl := Int.fdiv q.num q.den
  let r := q.num - fl * q.den
  if 2 * r < q.den then fl
  else if 2 * r > q.den then fl + 1
  else if fl % 2 = 0 then fl else fl + 1

/-- The report returned by `calculate_match_score`, whose keys are always
present. -/
structure MatchReport where
  match_percentage : ℤ
  skill_match : ℤ
  level_match : ℤ
  explanation : String
  matching_skills : List String
  missing_skills : List String
  recommendation : String
  deriving DecidableEq, Repr

/-- The `level_scores` dictionary literal of `calculate_match_score`, with
its float values as exact fractions. -/
def level_scores : List ((String × String) × Frac) :=
  [(("beginner", "beginner"), ⟨1, 1⟩),
   (("beginner", "intermediate"), ⟨4, 5⟩),
   (("beginner", "advanced"), ⟨3, 5⟩),
   (("intermediate", "beginner"), ⟨1, 2⟩),
   (("intermediate", "intermediate"), ⟨1, 1⟩),
   (("intermediate", "advanced"), ⟨4, 5⟩),
   (("advanced", "beginner"), ⟨3, 10⟩),
   (("advanced", "intermediate"), ⟨3, 5⟩),
   (("advanced", "advanced"), ⟨1, 1⟩)]

/-- Python `level_scores.get(key)` on the tuple-keyed dictionary. -/
def lookupScore (key : String × String) : Option Frac :=
  (level_scores.find? (fun p => p.1.1 == key.1 && p.1.2 == key.2)).map (fun p => p.2)

/-- `IssueAnalyzer._get_recommendation`. -/
def get_recommendation (match_score : Frac) : String :=
  if Frac.le ⟨4, 5⟩ match_score then
    "ðŸŸ¢ Excellent match! Start working on this."
  else if Frac.le ⟨3, 5⟩ match_score then
    "ðŸŸ¡ Good match. Minor learning needed."
  else if Frac.le ⟨2, 5⟩ match_score then
    "ðŸŸ  Moderate match. Some learning required."
  else
    "ðŸ”´ Low match. Better to learn more first."

/-- `IssueAnalyzer.calculate_match_score(issue_analysis, user_skills,
user_level)`.  Arithmetic on Python floats is modelled as exact fractions. -/
def calculate_match_score (issue_analysis : PyDict) (user_skills : List String)
    (user_level : String) : MatchReport :=
  let user_skills_lower := user_skills.map pyLower
  let required_skills := pyGetList "skills_required" issue_analysis
  let required_skills_lower := required_skills.map pyLower
  let skill_match : Frac :=
    if required_skills_lower = [] then ⟨1, 2⟩
    else ⟨(required_skills_lower.countP (fun s => user_skills_lower.contains s) : ℤ),
          (required_skills_lower.length : ℤ)⟩
  let issue_difficulty := pyGetStr "difficulty" issue_analysis "unknown"
  let level_match : Frac := (lookupScore (issue_difficulty, pyLower user_level)).getD ⟨1, 2⟩
  let overall_match := Frac.add (Frac.mul skill_match ⟨7, 10⟩) (Frac.mul level_match ⟨3, 10⟩)
  let matching_skills_list := required_skills.filter
    (fun s => user_skills_lower.contains (pyLower s))
  let missing_skills_list := required_skills.filter
    (fun s => !(user_skills_lower.contains (pyLower s)))
  let explanation_parts : List String :=
    (if matching_skills_list ≠ [] then
      ["âœ… You know: " ++ pyJoin ", " matching_skills_list]
     else [])
    ++ (if missing_skills_list ≠ [] then
      ["ðŸ“š You need to learn: " ++ pyJoin ", " missing_skills_list]
       else [])
    ++ (if issue_difficulty ≠ pyLower user_level then
      ["âš ï¸ Issue is " ++ issue_difficulty
        ++ ", you\x27re " ++ pyLower user_level]
       else [])
  { match_percentage := pyRound (Frac.mul overall_match ⟨100, 1⟩)
    skill_match := pyRound (Frac.mul skill_match ⟨100, 1⟩)
    level_match := pyRound (Frac.mul level_match ⟨100, 1⟩)
    explanation := pyJoin " | " explanation_parts
    matching_skills := matching_skills_list
    missing_skills := missing_skills_list
    recommendation := get_recommendation overall_match }

/-- Modelled from the spec: the provider-error taxonomy of the AI capability
(spec section 6).  The `AIAnalyzer` class that `app.py` and
`test_analyzer.py` import from `utils.ai_analyzer` is not present under
`src/`, so its error handling and `batch_analyze` are modelled from the
spec. -/
inductive ProviderError where
  | invalidArgument
  | permissionDenied
  | resourceExhausted
  | notFound
  | apiError
  | connectionError
  | timedOut
  deriving DecidableEq, Repr

/-- Modelled from the spec: the structured error carried by a failed
analysis — a kind from the fixed taxonomy, a human message, and a
remediation hint for `model_not_found`/`permission_denied` (spec
section 4.3). -/
structure SpecErrorInfo where
  kind : String
  message : String
  hint : Option String
  deriving DecidableEq, Repr

/-- Modelled from the spec: classification of a provider error into the kind
set `{model_not_found, invalid_request, permission_denied, quota_exceeded,
generic_api_error, network_error, timeout}` (spec sections 4.3 and 6). -/
def specClassify (e : ProviderError) (message : String) : SpecErrorInfo :=
  match e with
  | ProviderError.notFound =>
    ⟨"model_not_found", message,
     some "The model name may have changed; list the available models and update it."⟩
  | ProviderError.invalidArgument => ⟨"invalid_request", message, none⟩
  | ProviderError.permissionDenied =>
    ⟨"permission_denied", message,
     some "Check that the API key is valid and the Generative AI API is enabled."⟩
  | ProviderError.resourceExhausted => ⟨"quota_exceeded", message, none⟩
  | ProviderError.apiError => ⟨"generic_api_error", message, none⟩
  | ProviderError.connectionError => ⟨"network_error", message, none⟩
  | ProviderError.timedOut => ⟨"timeout", message, none⟩

/-- Modelled from the spec: one input issue of `batch_analyze` (spec
section 4.3). -/
structure SpecIssue where
  title : String
  description : String
  labels : List String
  deriving DecidableEq, Repr

/-- Modelled from the spec: an `AnalysisResult` of the missing `AIAnalyzer`,
reduced to the parts `batch_analyze` is specified to guarantee — the raw
response on success, the structured `error` on failure, and the 1-based
position and original title attached by batch analysis (spec sections 3
and 4.3). -/
structure SpecAnalysisResult where
  raw_response : String
  error : Option SpecErrorInfo
  issue_number : Option Nat
  issue_title : Option String
  deriving DecidableEq, Repr

/-- Modelled from the spec: single-issue analysis of the missing
`AIAnalyzer` as far as `batch_analyze` observes it — on success the
response is kept and `error` is empty, on failure the provider error is
classified into the `error` field and nothing is raised (spec
section 4.3). -/
def spec_analyze_issue (ai : SpecIssue → Except (ProviderError × String) String)
    (iss : SpecIssue) : SpecAnalysisResult :=
  match ai iss with
  | Except.ok text => ⟨text, none, none, none⟩
  | Except.error (e, m) => ⟨"", some (specClassify e m), none, none⟩

/-- Modelled from the spec: the sequential loop of `batch_analyze`, carrying
the 1-based position (spec section 4.3). -/
def spec_batch_go (ai : SpecIssue → Except (ProviderError × String) String)
    (pos : Nat) : List SpecIssue → List SpecAnalysisResult
  | [] => []
  | iss :: rest =>
    { spec_analyze_issue ai iss with
        issue_number := some pos, issue_title := some iss.title }
      :: spec_batch_go ai (pos + 1) rest

/-- Modelled from the spec: `batch_analyze(issues)` — strictly in input
order, sequentially, one result per input issue, each decorated with its
1-based position and original title (spec section 4.3). -/
def spec_batch_analyze (ai : SpecIssue → Except (ProviderError × String) String)
    (issues : List SpecIssue) : List SpecAnalysisResult :=
  spec_batch_go ai 1 issues

/-- The update performed by `parseStep` for each recognised field label
(`none` = the line matches no label and is ignored). -/
def applyKey : Option FieldKey → String → ParseResult → ParseResult
  | none, _, r => r
  | some FieldKey.difficulty, line0, r =>
    let difficulty := pyLower (pyStrip (afterFirstColon (pyStrip line0)))
    { r with difficulty := difficulty,
             good_for_beginners := difficulty == "beginner" }
  | some FieldKey.skills, line0, r =>
    { r with skills_required := splitCommaClean (pyStrip (afterFirstColon (pyStrip line0))) }
  | some FieldKey.time, line0, r =>
    { r with estimated_hours := pyStrip (afterFirstColon (pyStrip line0)) }
  | some FieldKey.gsoc, line0, r =>
    { r with good_for_gsoc := some (pyLower (pyStrip (afterFirstColon (pyStrip line0))) == "yes") }
  | some FieldKey.concepts, line0, r =>
    { r with concepts_needed := splitCommaClean (pyStrip (afterFirstColon (pyStrip line0))) }
  | some FieldKey.explanation, line0, r =>
    { r with explanation := pyStrip (afterFirstColon (pyStrip line0)) }

/-- The stubbed AI response of the end-to-end scenario in spec section 8. -/
def c4response : String :=
  "DIFFICULTY: Beginner\nSKILLS: Markdown\nTIME: 1\nGSOC_FRIENDLY: Yes\nCATEGORY: documentation\nPRIORITY: Low\nREASONING: Simple text fix."

/-- The end-to-end scenario call of spec section 8, with the AI capability
stubbed to return `c4response`. -/
def c4call : CallResult :=
  analyze_issue (fun _ => Except.ok c4response) ⟨[]⟩
    "Fix typo in README.md" "installtion should be installation"
    (some ["documentation", "good first issue"])

/-- The dictionary `analyze_issue` actually returns in the end-to-end
scenario: only the `DIFFICULTY:` and `SKILLS:` lines of the stub response
match the parser's labels; there are no `category` or `priority` keys. -/
def c4dict : PyDict :=
  [("difficulty", PyVal.str "beginner"),
   ("skills_required", PyVal.list ["Markdown"]),
   ("estimated_hours", PyVal.str "unknown"),
   ("good_for_beginners", PyVal.bool true),
   ("concepts_needed", PyVal.list []),
   ("explanation", PyVal.str ""),
   ("original_title", PyVal.str "Fix typo in README.md"),
   ("original_description", PyVal.str "installtion should be installation"),
   ("labels", PyVal.list ["documentation", "good first issue"])]

/-- A stub AI capability that always raises a `ValueError`. -/
def aiValueError : String → Except PyExc String :=
  fun _ => Except.error ⟨PyExcClass.valueError, "boom"⟩

/-- A stub AI capability that always raises a `TypeError`. -/
def aiTypeError : String → Except PyExc String :=
  fun _ => Except.error ⟨PyExcClass.typeError, "bad response"⟩

/-- A stub AI capability that always raises a provider `NotFound` exception —
a class `analyze_issue` does not catch. -/
def aiNotFound : String → Except PyExc String :=
  fun _ => Except.error ⟨PyExcClass.other "NotFound", "404 model not found"⟩

/-- A stub AI capability that always succeeds with a one-line response. -/
def aiBeginner : String → Except PyExc String :=
  fun _ => Except.ok "DIFFICULTY: beginner"

/-- The dictionary `analyze_issue` returns for the `aiBeginner` stub on
title `"t"`, description `"d"`, no labels. -/
def aiBeginnerDict : PyDict :=
  [("difficulty", PyVal.str "beginner"),
   ("skills_required", PyVal.list []),
   ("estimated_hours", PyVal.str "unknown"),
   ("good_for_beginners", PyVal.bool true),
   ("concepts_needed", PyVal.list []),
   ("explanation", PyVal.str ""),
   ("original_title", PyVal.str "t"),
   ("original_description", PyVal.str "d"),
   ("labels", PyVal.list [])]

/-- A stub AI capability for the batch scenario of spec section 8: fails
with a quota error on the issue titled `"Implement dark mode toggle"` and
succeeds otherwise. -/
def c3ai : SpecIssue → Except (ProviderError × String) String :=
  fun iss =>
    if iss.title == "Implement dark mode toggle" then
      Except.error (ProviderError.resourceExhausted, "429 quota exceeded")
    else Except.ok "DIFFICULTY: beginner"

/-- The three batch issues of the scenario in spec section 8 /
`test_analyzer.py`. -/
def c3issues : List SpecIssue :=
  [⟨"Fix typo in README.md", "spelling mistake", ["documentation"]⟩,
   ⟨"Implement dark mode toggle", "CSS variables", ["enhancement"]⟩,
   ⟨"Add unit tests for authentication module", "Jest tests", ["testing"]⟩]

/-! Helper lemmas (shared infrastructure, not tied to a single claim). -/

/-- Looking up a key right after storing it hits the stored value. -/
theorem cacheGet_cacheSet_self (k : String) (v : PyDict) :
    ∀ c, cacheGet k (cacheSet k v c) = some v := by
  intro c
  induction c with
  | nil => simp [cacheGet, cacheSet, List.find?]
  | cons p rest ih =>
    by_cases h : p.1 == k
    · simp [cacheSet, h, cacheGet, List.find?]
    · simp only [cacheSet, h, if_neg, Bool.false_eq_true, not_false_iff, if_false]
      simpa [cacheGet, List.find?, h] using ih

/-- The `error` key of the error dictionary holds the raw exception
message. -/
theorem dictGet_error_errorDict (msg title : String) :
    dictGet "error" (errorDict msg title) = some (PyVal.str msg) := rfl

/-- `parseStep` never inserts a `parsing_error` key. -/
theorem parseStep_parsing_error (z : ParseResult) (l : String) :
    (parseStep z l).parsing_error = z.parsing_error := by
  simp only [parseStep]
  repeat' split
  all_goals rfl

/-- The parsing loop never inserts a `parsing_error` key. -/
theorem foldl_parsing_error :
    ∀ (ls : List String) (z : ParseResult),
      (List.foldl parseStep z ls).parsing_error = z.parsing_error := by
  intro ls
  induction ls with
  | nil => intro z; rfl
  | cons l rest ih =>
    intro z
    simpa [List.foldl, parseStep_parsing_error] using
      (ih (parseStep z l)).trans (parseStep_parsing_error z l)

/-- A line that does not start (after stripping) with `SKILLS:` leaves the
`skills_required` field unchanged. -/
theorem parseStep_skills (z : ParseResult) (l : String)
    (h : pyStartsWith (pyStrip l) "SKILLS:" = false) :
    (parseStep z l).skills_required = z.skills_required := by
  simp only [parseStep]
  repeat' split
  all_goals simp_all

/-- The parsing loop leaves `skills_required` unchanged when no line starts
with `SKILLS:`. -/
theorem foldl_skills :
    ∀ (ls : List String) (z : ParseResult),
      (∀ l ∈ ls, pyStartsWith (pyStrip l) "SKILLS:" = false) →
      (List.foldl parseStep z ls).skills_required = z.skills_required := by
  intro ls
  induction ls with
  | nil => intro z _; rfl
  | cons l rest ih =>
    intro z h
    have h1 := h l (List.mem_cons_self l rest)
    have h2 : ∀ x ∈ rest, pyStartsWith (pyStrip x) "SKILLS:" = false :=
      fun x hx => h x (List.mem_cons_of_mem l hx)
    calc (List.foldl parseStep z (l :: rest)).skills_required
        = (List.foldl parseStep (parseStep z l) rest).skills_required := rfl
      _ = (parseStep z l).skills_required := ih (parseStep z l) h2
      _ = z.skills_required := parseStep_skills z l h1

/-- `parseStep` acts on the result exactly as `applyKey` of the line's
matched label. -/
theorem parseStep_eq_applyKey (z : ParseResult) (l : String) :
    parseStep z l = applyKey (lineKey l) l z := by
  simp only [parseStep, lineKey]
  by_cases h1 : pyStartsWith (pyStrip l) "DIFFICULTY:" = true
  · simp [h1, applyKey]
  · by_cases h2 : pyStartsWith (pyStrip l) "SKILLS:" = true
    · simp [h1, h2, applyKey]
    · by_cases h3 : pyStartsWith (pyStrip l) "TIME_ESTIMATE:" = true
      · simp [h1, h2, h3, applyKey]
      · by_cases h4 : pyStartsWith (pyStrip l) "GOOD_FOR_GSOC:" = true
        · simp [h1, h2, h3, h4, applyKey]
        · by_cases h5 : pyStartsWith (pyStrip l) "CONCEPTS:" = true
          · simp [h1, h2, h3, h4, h5, applyKey]
          · by_cases h6 : pyStartsWith (pyStrip l) "EXPLANATION:" = true
            · simp [h1, h2, h3, h4, h5, h6, applyKey]
            · simp [h1, h2, h3, h4, h5, h6, applyKey]

/-- Updates for two distinct field labels commute. -/
theorem applyKey_comm (kx ky : FieldKey) (hne : kx ≠ ky) (x y : String)
    (z : ParseResult) :
    applyKey (some ky) y (applyKey (some kx) x z)
      = applyKey (some kx) x (applyKey (some ky) y z) := by
  cases z
  cases kx <;> cases ky <;> first
    | exact absurd rfl hne
    | rfl

/-- Two parsing steps commute when their lines do not address the same
field. -/
theorem parseStep_comm (x y : String)
    (h : lineKey x = none ∨ lineKey y = none ∨ lineKey x ≠ lineKey y)
    (z : ParseResult) :
    parseStep (parseStep z x) y = parseStep (parseStep z y) x := by
  rw [parseStep_eq_applyKey, parseStep_eq_applyKey, parseStep_eq_applyKey,
      parseStep_eq_applyKey]
  cases hx : lineKey x with
  | none => simp [applyKey]
  | some kx =>
    cases hy : lineKey y with
    | none => simp [applyKey]
    | some ky =>
      have hne : kx ≠ ky := by
        rcases h with h | h | h
        · exact absurd hx (by simp [h])
        · exact absurd hy (by simp [h])
        · intro hk; exact h (by rw [hx, hy, hk])
      exact applyKey_comm kx ky hne x y z

/-! Claim theorems. -/

/-- C10: `quick_analyze(title, description)` constructs a fresh
`IssueAnalyzer` with an empty cache and returns
`analyze_issue(title, description, None)` on it; because the fresh cache is
empty, every `quick_analyze` call invokes the AI capability exactly once, so
the memoization of `analyze_issue` never spans separate `quick_analyze`
calls. -/
theorem C10_quick_analyze_fresh (ai : String → Except PyExc String)
    (title description : String) :
    quick_analyze ai title description = analyze_issue ai ⟨[]⟩ title description none
    ∧ (quick_analyze ai title description).aiCalls = 1 := by
  refine ⟨rfl, ?_⟩
  unfold quick_analyze analyze_issue
  cases h : ai (create_analysis_prompt title description none) with
  | ok text => simp [cacheGet, List.find?, h]
  | error e =>
    cases hc : isCaught e.cls <;> simp [cacheGet, List.find?, h, hc]

/-- C9: when the AI capability fails (raises), `analyze_issue` stores
nothing in the cache — the analyzer state is unchanged — so an immediate
second call with the same inputs behaves identically, re-attempting the AI
call (exactly one AI invocation) whenever the key is not cached. -/
theorem C9_failure_not_cached (ai : String → Except PyExc String)
    (st : AnalyzerState) (title description : String)
    (labels : Option (List String)) (e : PyExc)
    (hfail : ai (create_analysis_prompt title description labels) = Except.error e) :
    (analyze_issue ai st title description labels).state = st
    ∧ analyze_issue ai (analyze_issue ai st title description labels).state
        title description labels
      = analyze_issue ai st title description labels
    ∧ (cacheGet (cacheKey title description) st.analysis_cache = none →
        (analyze_issue ai st title description labels).aiCalls = 1) := by
  cases hc : cacheGet (cacheKey title description) st.analysis_cache with
  | some cached =>
    refine ⟨?_, ?_, ?_⟩
    · simp [analyze_issue, hc]
    · simp [analyze_issue, hc]
    · intro hnone; exact absurd hnone (by simp)
  | none =>
    have hstate : (analyze_issue ai st title description labels).state = st := by
      simp only [analyze_issue, hc, hfail]
      cases hcaught : isCaught e.cls <;> simp [hcaught]
    refine ⟨hstate, ?_, ?_⟩
    · rw [hstate]
    · intro _
      simp only [analyze_issue, hc, hfail]
      cases hcaught : isCaught e.cls <;> simp [hcaught]

/-- C9 witness: a concrete failing AI capability (a `ValueError`) leaves the
empty analyzer state unchanged, the second call repeats the first, and the
AI is invoked once. -/
theorem C9_witness :
    (analyze_issue aiValueError ⟨[]⟩ "t" "d" none).state = ⟨[]⟩
    ∧ analyze_issue aiValueError
        (analyze_issue aiValueError ⟨[]⟩ "t" "d" none).state "t" "d" none
      = analyze_issue aiValueError ⟨[]⟩ "t" "d" none
    ∧ (cacheGet (cacheKey "t" "d") (⟨[]⟩ : AnalyzerState).analysis_cache = none →
        (analyze_issue aiValueError ⟨[]⟩ "t" "d" none).aiCalls = 1) :=
  C9_failure_not_cached aiValueError
    ⟨[]⟩ "t" "d" none ⟨PyExcClass.valueError, "boom"⟩ rfl

/-- C2 counterexample: the claim says `analyze_issue` never raises when the
AI capability fails and classifies the error into a kind.  In the code only
`ValueError`, `AttributeError` and `TypeError` are caught; a provider
exception of any other class — here a `NotFound` as raised by the real
Gemini client and handled separately in `test_gemini.py` — propagates out of
`analyze_issue` unchanged, so the call raises instead of returning a
classified error result. -/
theorem C2_counterexample :
    (analyze_issue aiNotFound ⟨[]⟩ "Fix bug" "some description" none).result
      = Except.error ⟨PyExcClass.other "NotFound", "404 model not found"⟩ := rfl

/-- C2 amended: on a cache miss, when the AI capability raises, `analyze_issue`
returns without raising only for the caught classes `ValueError`,
`AttributeError` and `TypeError`; the returned dictionary carries the raw
exception message under `error` (no kind from a fixed taxonomy, no `message`
field, no remediation-hint field) together with the defaults; exceptions of
any other class propagate to the caller. -/
theorem C2_amended_catch_is_partial (ai : String → Except PyExc String)
    (st : AnalyzerState) (title description : String)
    (labels : Option (List String)) (e : PyExc)
    (hmiss : cacheGet (cacheKey title description) st.analysis_cache = none)
    (hfail : ai (create_analysis_prompt title description labels) = Except.error e) :
    (analyze_issue ai st title description labels).result
      = (if isCaught e.cls then Except.ok (errorDict e.msg title) else Except.error e)
    ∧ dictGet "error" (errorDict e.msg title) = some (PyVal.str e.msg)
    ∧ dictGet "message" (errorDict e.msg title) = none
    ∧ dictGet "solution" (errorDict e.msg title) = none := by
  refine ⟨?_, rfl, rfl, rfl⟩
  simp only [analyze_issue, hmiss, hfail]
  cases hcaught : isCaught e.cls <;> simp [hcaught]

/-- C2 witness: a concrete caught failure (a `TypeError` with message
"bad response") yields the error dictionary with the raw message and no
structured kind, message or solution fields. -/
theorem C2_witness :
    (analyze_issue aiTypeError ⟨[]⟩ "t" "d" none).result
      = (if isCaught PyExcClass.typeError then
          Except.ok (errorDict "bad response" "t")
         else Except.error ⟨PyExcClass.typeError, "bad response"⟩)
    ∧ dictGet "error" (errorDict "bad response" "t") = some (PyVal.str "bad response")
    ∧ dictGet "message" (errorDict "bad response" "t") = none
    ∧ dictGet "solution" (errorDict "bad response" "t") = none :=
  C2_amended_catch_is_partial aiTypeError
    ⟨[]⟩ "t" "d" none ⟨PyExcClass.typeError, "bad response"⟩ rfl rfl

/-- C8: the response parser is total and best-effort — in the faithful
embedding the `try` body cannot raise, so the `parsing_error` annotation key
is never inserted (the `except` branch that would record it is dead), and a
response with no `SKILLS:` line leaves `skills_required` at its default
`[]`. -/
theorem C8_parser_best_effort (s : String) :
    ((∀ l ∈ pySplit '\n' (pyStrip s), pyStartsWith (pyStrip l) "SKILLS:" = false) →
      (parse_ai_response s).skills_required = [])
    ∧ (parse_ai_response s).parsing_error = none := by
  constructor
  · intro h
    unfold parse_ai_response parseLines
    exact (foldl_skills (pySplit '\n' (pyStrip s)) initResult h).trans rfl
  · unfold parse_ai_response parseLines
    exact (foldl_parsing_error (pySplit '\n' (pyStrip s)) initResult).trans rfl

/-- C8 witness: a concrete response with no `SKILLS:` line parses to the
default empty skill list, with no parsing-error annotation. -/
theorem C8_witness :
    (parse_ai_response "DIFFICULTY: beginner\nEXPLANATION: tiny").skills_required = []
    ∧ (parse_ai_response "DIFFICULTY: beginner\nEXPLANATION: tiny").parsing_error = none :=
  ⟨(C8_parser_best_effort "DIFFICULTY: beginner\nEXPLANATION: tiny").1 (by decide),
   (C8_parser_best_effort "DIFFICULTY: beginner\nEXPLANATION: tiny").2⟩

/-- C4 counterexample: in the end-to-end scenario the claim expects
`category == "documentation"` and `priority == "low"`, but the parser in
`src/utils/ai_analyzer.py` recognises no `CATEGORY:` or `PRIORITY:` labels at
all: the returned dictionary has no such keys (and the `TIME:` and
`GSOC_FRIENDLY:` lines of the stub are likewise ignored). -/
theorem C4_counterexample :
    c4call.result = Except.ok c4dict
    ∧ dictGet "category" c4dict = none
    ∧ dictGet "priority" c4dict = none := by
  refine ⟨?_, rfl, rfl⟩
  rfl

/-- C4 amended: the end-to-end scenario yields `difficulty == "beginner"`
and `skills_required == ["Markdown"]`, but the `TIME:`, `GSOC_FRIENDLY:`,
`CATEGORY:`, `PRIORITY:` and `REASONING:` lines of the stub response are all
ignored — `estimated_hours` stays `"unknown"`, no GSOC flag is recorded, and
no category or priority fields exist in the result. -/
theorem C4_amended_end_to_end :
    c4call.result = Except.ok c4dict
    ∧ dictGet "difficulty" c4dict = some (PyVal.str "beginner")
    ∧ dictGet "skills_required" c4dict = some (PyVal.list ["Markdown"])
    ∧ dictGet "estimated_hours" c4dict = some (PyVal.str "unknown")
    ∧ dictGet "good_for_gsoc" c4dict = none := by
  exact ⟨rfl, rfl, rfl, rfl, rfl⟩

/-- On a cache miss with a successful AI call, `analyze_issue` returns the
attached analysis dictionary and stores it in the cache under the
fingerprint. -/
theorem analyze_issue_success (ai : String → Except PyExc String)
    (st : AnalyzerState) (title description : String)
    (labels : Option (List String)) (text : String)
    (hc : cacheGet (cacheKey title description) st.analysis_cache = none)
    (hai : ai (create_analysis_prompt title description labels) = Except.ok text) :
    analyze_issue ai st title description labels =
      ⟨Except.ok (dictSet "labels" (PyVal.list (labels.getD []))
          (dictSet "original_description" (PyVal.str (pyTake 200 description))
            (dictSet "original_title" (PyVal.str title)
              (toDict (parse_ai_response text))))),
       ⟨cacheSet (cacheKey title description)
          (dictSet "labels" (PyVal.list (labels.getD []))
            (dictSet "original_description" (PyVal.str (pyTake 200 description))
              (dictSet "original_title" (PyVal.str title)
                (toDict (parse_ai_response text)))))
          st.analysis_cache⟩,
       1⟩ := by
  simp [analyze_issue, hc, hai]

/-- C5: after a first `analyze_issue` call that returned successfully (its
result carries no `error` key), a second call with the same title and a
description agreeing on its first 100 characters — in particular, an
identical second call — returns the very same dictionary from the cache,
with zero invocations of the AI capability.  The fingerprint is built from
exactly the title and the first 100 characters of the description
(`cacheKey`), so the second description and labels may differ beyond
that. -/
theorem C5_second_call_cached (ai : String → Except PyExc String)
    (st : AnalyzerState) (title desc desc2 : String)
    (labels labels2 : Option (List String)) (d : PyDict)
    (hpre : pyTake 100 desc = pyTake 100 desc2)
    (h1 : (analyze_issue ai st title desc labels).result = Except.ok d)
    (herr : dictGet "error" d = none) :
    (analyze_issue ai (analyze_issue ai st title desc labels).state
        title desc2 labels2).result = Except.ok d
    ∧ (analyze_issue ai (analyze_issue ai st title desc labels).state
        title desc2 labels2).aiCalls = 0 := by
  have hkey : cacheKey title desc2 = cacheKey title desc := by
    unfold cacheKey; rw [hpre]
  cases hc : cacheGet (cacheKey title desc) st.analysis_cache with
  | some cached =>
    have hres : analyze_issue ai st title desc labels =
        ⟨Except.ok cached, st, 0⟩ := by
      simp [analyze_issue, hc]
    rw [hres] at h1
    have hcd : cached = d := by simpa using h1
    rw [hres]
    simp [analyze_issue, hkey, hc, hcd]
  | none =>
    cases hai : ai (create_analysis_prompt title desc labels) with
    | ok text =>
      have hres := analyze_issue_success ai st title desc labels text hc hai
      rw [hres] at h1
      have hAd : dictSet "labels" (PyVal.list (labels.getD []))
          (dictSet "original_description" (PyVal.str (pyTake 200 desc))
            (dictSet "original_title" (PyVal.str title)
              (toDict (parse_ai_response text)))) = d := by
        simpa using h1
      rw [hres]
      have hhit : cacheGet (cacheKey title desc2)
          (cacheSet (cacheKey title desc)
            (dictSet "labels" (PyVal.list (labels.getD []))
              (dictSet "original_description" (PyVal.str (pyTake 200 desc))
                (dictSet "original_title" (PyVal.str title)
                  (toDict (parse_ai_response text)))))
            st.analysis_cache) = some d := by
        rw [hkey, hAd]
        exact cacheGet_cacheSet_self _ _ _
      constructor <;> simp [analyze_issue, hhit]
    | error e =>
      cases hcaught : isCaught e.cls with
      | false =>
        have : (analyze_issue ai st title desc labels).result = Except.error e := by
          simp [analyze_issue, hc, hai, hcaught]
        rw [this] at h1
        exact absurd h1 (by simp)
      | true =>
        have : (analyze_issue ai st title desc labels).result
            = Except.ok (errorDict e.msg title) := by
          simp [analyze_issue, hc, hai, hcaught]
        rw [this] at h1
        have hd : errorDict e.msg title = d := by simpa using h1
        rw [← hd] at herr
        exact absurd herr (by simp [dictGet, errorDict, List.find?])

/-- C5 witness: with a stub AI returning a fixed response, the second
identical call returns the first call's dictionary from the cache without
invoking the AI. -/
theorem C5_witness :
    (analyze_issue aiBeginner
        (analyze_issue aiBeginner ⟨[]⟩ "t" "d" none).state "t" "d" none).result
      = Except.ok aiBeginnerDict
    ∧ (analyze_issue aiBeginner
        (analyze_issue aiBeginner ⟨[]⟩ "t" "d" none).state "t" "d" none).aiCalls = 0 :=
  C5_second_call_cached aiBeginner
    ⟨[]⟩ "t" "d" "d" none none aiBeginnerDict rfl rfl (by decide)

/-- C7: skill matching is case-insensitive recall over the required skills:
an empty `skills_required` reports `skill_match = 50` (the neutral 0.5
prior); `matching_skills` are the required skills whose lower-cased form
appears among the lower-cased user skills, in the original order and casing,
and `missing_skills` are the complement in the same order; the spec example
`skills_required = ["Python", "Git"]`, `user_skills = ["python"]` gives
`["Python"]` / `["Git"]` and `skill_match = 50`. -/
theorem C7_skill_recall :
    (∀ (d : PyDict) (us : List String) (ul : String),
        pyGetList "skills_required" d = [] →
        (calculate_match_score d us ul).skill_match = 50)
    ∧ (∀ (d : PyDict) (us : List String) (ul : String),
        (calculate_match_score d us ul).matching_skills
          = (pyGetList "skills_required" d).filter
              (fun s => (us.map pyLower).contains (pyLower s))
        ∧ (calculate_match_score d us ul).missing_skills
          = (pyGetList "skills_required" d).filter
              (fun s => !((us.map pyLower).contains (pyLower s))))
    ∧ (calculate_match_score [("skills_required", PyVal.list ["Python", "Git"])]
        ["python"] "beginner").matching_skills = ["Python"]
    ∧ (calculate_match_score [("skills_required", PyVal.list ["Python", "Git"])]
        ["python"] "beginner").missing_skills = ["Git"]
    ∧ (calculate_match_score [("skills_required", PyVal.list ["Python", "Git"])]
        ["python"] "beginner").skill_match = 50 := by
  refine ⟨?_, fun d us ul => ⟨rfl, rfl⟩, by decide, by decide, by decide⟩
  intro d us ul h
  have hs : (calculate_match_score d us ul).skill_match
      = pyRound (Frac.mul ⟨1, 2⟩ ⟨100, 1⟩) := by
    simp [calculate_match_score, h]
  rw [hs]
  decide

/-- C7 witness: an analysis with an empty required-skill list reports
`skill_match = 50` whatever the user's skills. -/
theorem C7_witness :
    (calculate_match_score [] ["python", "git"] "beginner").skill_match = 50 :=
  C7_skill_recall.1 [] ["python", "git"] "beginner" rfl

/-- C6 counterexample: the claim says the `level_scores` table is keyed with
both the issue difficulty and the user level lower-cased, which would send
issue difficulty `"Beginner"` with user level `"beginner"` to the
`(beginner, beginner)` entry, i.e. `level_match = 100`.  The code lower-cases
only the user level; the pair `("Beginner", "beginner")` misses the table and
falls back to the 0.5 default, so `level_match = 50`. -/
theorem C6_counterexample :
    (calculate_match_score [("difficulty", PyVal.str "Beginner")] []
      "beginner").level_match = 50 := by decide

/-- C6 amended: `level_match` is looked up from the fixed 3×3 table keyed by
the issue difficulty taken verbatim (the parser already lower-cases it) and
the user level lower-cased; any pair absent from the table — issue
difficulty `"unknown"`, or any non-lowercase issue difficulty — yields the
0.5 default, i.e. `level_match = 50`, while user-level casing is
normalized. -/
theorem C6_level_table :
    (∀ (d : PyDict) (us : List String) (ul : String),
        lookupScore (pyGetStr "difficulty" d "unknown", pyLower ul) = none →
        (calculate_match_score d us ul).level_match = 50)
    ∧ (∀ us : List String,
        (calculate_match_score [("difficulty", PyVal.str "beginner")] us
          "beginner").level_match = 100)
    ∧ (∀ us : List String,
        (calculate_match_score [("difficulty", PyVal.str "advanced")] us
          "beginner").level_match = 30)
    ∧ (∀ us : List String,
        (calculate_match_score [("difficulty", PyVal.str "beginner")] us
          "BEGINNER").level_match = 100)
    ∧ (∀ (us : List String) (ul : String),
        (calculate_match_score [("difficulty", PyVal.str "unknown")] us
          ul).level_match = 50) := by
  refine ⟨?_, fun us => rfl, fun us => rfl, fun us => rfl, fun us ul => rfl⟩
  intro d us ul h
  have hs : (calculate_match_score d us ul).level_match
      = pyRound (Frac.mul ⟨1, 2⟩ ⟨100, 1⟩) := by
    simp [calculate_match_score, h]
  rw [hs]
  decide

/-- C6 witness: the pair (issue difficulty `"Advanced"`, user level
`"beginner"`) is absent from the table (the difficulty is not lower-cased),
so `level_match = 50`. -/
theorem C6_witness :
    (calculate_match_score [("difficulty", PyVal.str "Advanced")] []
      "beginner").level_match = 50 :=
  C6_level_table.1 [("difficulty", PyVal.str "Advanced")] [] "beginner" rfl

/-- C1 counterexample: the claim says field lines are identified by
upper-casing the key side and matching by substring containment, so that the
variants `TIME:` and `GSOC_FRIENDLY:` and case-varied keys such as
`difficulty:` populate their fields.  The parser in fact matches by exact,
case-sensitive `startswith` on the six canonical labels: a `TIME: 5` line
leaves `estimated_hours` at `"unknown"`, a lowercase `difficulty: beginner`
line leaves `difficulty` at `"unknown"`, and a `GSOC_FRIENDLY: Yes` line
records no GSOC flag at all. -/
theorem C1_counterexample :
    (parse_ai_response "TIME: 5\ndifficulty: beginner\nGSOC_FRIENDLY: Yes").estimated_hours
      = "unknown"
    ∧ (parse_ai_response "TIME: 5\ndifficulty: beginner\nGSOC_FRIENDLY: Yes").difficulty
      = "unknown"
    ∧ (parse_ai_response "TIME: 5\ndifficulty: beginner\nGSOC_FRIENDLY: Yes").good_for_gsoc
      = none := by decide

/-- C1 amended: the parser identifies field lines by exact, case-sensitive
prefix match on the canonical labels (`DIFFICULTY:`, `SKILLS:`,
`TIME_ESTIMATE:`, `GOOD_FOR_GSOC:`, `CONCEPTS:`, `EXPLANATION:`) after
stripping each line; a line matching none of them (`lineKey = none`) is
ignored, so label variants and case-varied keys leave their fields at the
defaults.  Under this matching, a response whose lines appear in arbitrary
order — with no two distinct lines addressing the same field — produces the
same structured result as the canonical order. -/
theorem C1_exact_prefix_order_independent :
    (∀ (z : ParseResult) (l : String), lineKey l = none → parseStep z l = z)
    ∧ (∀ l1 l2 : List String, l1.Perm l2 →
        (∀ x ∈ l1, ∀ y ∈ l1,
          x = y ∨ lineKey x = none ∨ lineKey y = none ∨ lineKey x ≠ lineKey y) →
        parseLines l1 = parseLines l2) := by
  constructor
  · intro z l h
    rw [parseStep_eq_applyKey, h]
    rfl
  · intro l1 l2 hp hcomm
    unfold parseLines
    apply hp.foldl_eq'
    intro x hx y hy z
    rcases hcomm x hx y hy with h | h
    · subst h; rfl
    · exact parseStep_comm x y h z

/-- C1 witness: a two-line response parses to the same result with its lines
swapped. -/
theorem C1_witness :
    parseLines ["SKILLS: Python", "DIFFICULTY: beginner"]
      = parseLines ["DIFFICULTY: beginner", "SKILLS: Python"] :=
  C1_exact_prefix_order_independent.2
    ["SKILLS: Python", "DIFFICULTY: beginner"]
    ["DIFFICULTY: beginner", "SKILLS: Python"]
    (by decide) (by decide)

/-- The batch loop produces one result per issue. -/
theorem spec_batch_go_length (ai : SpecIssue → Except (ProviderError × String) String) :
    ∀ (l : List SpecIssue) (p : Nat), (spec_batch_go ai p l).length = l.length := by
  intro l
  induction l with
  | nil => intro p; rfl
  | cons iss rest ih => intro p; simp [spec_batch_go, ih]

/-- Each element of the batch loop's output is the analysis of the
corresponding input issue, decorated with its position and title. -/
theorem spec_batch_go_get (ai : SpecIssue → Except (ProviderError × String) String) :
    ∀ (l : List SpecIssue) (p : Nat) (i : Nat) (h : i < l.length)
      (h2 : i < (spec_batch_go ai p l).length),
      (spec_batch_go ai p l).get ⟨i, h2⟩ =
        { spec_analyze_issue ai (l.get ⟨i, h⟩) with
            issue_number := some (p + i),
            issue_title := some ((l.get ⟨i, h⟩).title) } := by
  intro l
  induction l with
  | nil => intro p i h h2; exact absurd h (Nat.not_lt_zero i)
  | cons iss rest ih =>
    intro p i h h2
    cases i with
    | zero => simp [spec_batch_go]
    | succ n =>
      have hn : n < rest.length := Nat.lt_of_succ_lt_succ h
      have hn2 : n < (spec_batch_go ai (p + 1) rest).length := by
        rw [spec_batch_go_length]; exact hn
      have hstep : (spec_batch_go ai p (iss :: rest)).get ⟨n + 1, h2⟩
          = (spec_batch_go ai (p + 1) rest).get ⟨n, hn2⟩ := rfl
      rw [hstep, ih (p + 1) n hn hn2]
      have harith : p + 1 + n = p + (n + 1) := by omega
      rw [harith]
      rfl

/-- C3: `batch_analyze` (modelled from the spec, since the `AIAnalyzer`
class it belongs to is imported by `app.py`/`test_analyzer.py` but absent
from `src/`) processes the issues strictly in input order and returns
exactly one result per input issue — the i-th result is the single-issue
analysis of the i-th input, decorated with its 1-based position and original
title — and a failure on one issue does not abort the batch: that issue's
result carries the classified `error` while every other position is
unaffected. -/
theorem C3_batch_one_result_per_issue
    (ai : SpecIssue → Except (ProviderError × String) String)
    (issues : List SpecIssue) :
    (spec_batch_analyze ai issues).length = issues.length
    ∧ (∀ (i : Nat) (h : i < issues.length)
        (h2 : i < (spec_batch_analyze ai issues).length),
        (spec_batch_analyze ai issues).get ⟨i, h2⟩ =
          { spec_analyze_issue ai (issues.get ⟨i, h⟩) with
              issue_number := some (i + 1),
              issue_title := some ((issues.get ⟨i, h⟩).title) })
    ∧ (∀ (i : Nat) (h : i < issues.length)
        (h2 : i < (spec_batch_analyze ai issues).length)
        (pe : ProviderError) (m : String),
        ai (issues.get ⟨i, h⟩) = Except.error (pe, m) →
        ((spec_batch_analyze ai issues).get ⟨i, h2⟩).error
          = some (specClassify pe m)) := by
  refine ⟨spec_batch_go_length ai issues 1, ?_, ?_⟩
  · intro i h h2
    have := spec_batch_go_get ai issues 1 i h h2
    rwa [Nat.add_comm 1 i] at this
  · intro i h h2 pe m hfail
    have hget := spec_batch_go_get ai issues 1 i h h2
    unfold spec_batch_analyze
    rw [hget]
    have hfail2 : ai issues[i] = Except.error (pe, m) := hfail
    simp [spec_analyze_issue, hfail2]

/-- C3 witness: three issues with the AI capability failing (quota) on the
second yield three results; the second carries the classified
`quota_exceeded` error and the first and third are the successful analyses
of their issues. -/
theorem C3_witness :
    (spec_batch_analyze c3ai c3issues).length = 3
    ∧ ((spec_batch_analyze c3ai c3issues).get ⟨1, by decide⟩).error
      = some (specClassify ProviderError.resourceExhausted "429 quota exceeded") :=
  ⟨(C3_batch_one_result_per_issue c3ai c3issues).1.trans rfl,
   (C3_batch_one_result_per_issue c3ai c3issues).2.2 1 (by decide) (by decide)
     ProviderError.resourceExhausted "429 quota exceeded" rfl⟩
